import Mathlib

/-
A shallow embedding in Lean 4 of the callback-bridging and resource-lifecycle
subsystem of the rust-weechat bindings (crates weechat-rs and weechat-sys).
The host (the WeeChat C plugin API) is modelled as an explicit record of the
functions this layer calls; raw pointers are modelled as natural numbers with
0 as the null sentinel; the host calls a registration hands to the host are
captured in explicit call records; C strings are modelled as Lean strings
(the LossyCString conversion is lossless on valid input and is modelled as
the identity).
-/

namespace Weechat

/-- Host ABI return code handed back by every trampoline of this layer
(weechat_sys::WEECHAT_RC_OK; the concrete value of the host constant is 0,
but no claim depends on it beyond its being one fixed value). -/
def WEECHAT_RC_OK : Int := 0

/-- Host hdata type tag for strings (weechat_sys::WEECHAT_HDATA_STRING,
bound from the host header by the weechat-sys build). -/
def WEECHAT_HDATA_STRING : Int := 4

/-- Host hdata type tag for single characters (weechat_sys::WEECHAT_HDATA_CHAR). -/
def WEECHAT_HDATA_CHAR : Int := 1

/-- Host hdata type tag for 32-bit integers (weechat_sys::WEECHAT_HDATA_INTEGER). -/
def WEECHAT_HDATA_INTEGER : Int := 2

/-- Host hdata type tag for long integers (weechat_sys::WEECHAT_HDATA_LONG). -/
def WEECHAT_HDATA_LONG : Int := 3

/-- Host hdata type tag for opaque pointers (weechat_sys::WEECHAT_HDATA_POINTER). -/
def WEECHAT_HDATA_POINTER : Int := 5

/-- Host hdata type tag for calendar timestamps (weechat_sys::WEECHAT_HDATA_TIME). -/
def WEECHAT_HDATA_TIME : Int := 6

/-- Model of one hdata table together with the host functions that read it
(src/weechat-rs/src/hdata.rs: the HData struct bundles the plugin pointer,
the object pointer and the table pointer; here the host's per-field replies
are carried directly, keyed by field name, since table and object are fixed
for a given HData value). `string` returns `none` for a null C string;
`pointer` returns the raw address, with 0 as the null sentinel; `char_val`
is the host's c_char (an i8 on the bound platforms), `integer` a c_int,
`long` a c_long, `time` a time_t. -/
structure HDataHost where
  weechat_ptr : Nat
  var_type : String → Int
  string : String → Option String
  char_val : String → Int
  integer : String → Int
  long : String → Int
  time : String → Int
  pointer : String → Nat

/-- An opaque wrapper for a pointer stored in hdata
(src/weechat-rs/src/hdata.rs, struct HDataPointer: the raw pointer plus the
plugin pointer, kept so the wrapper can be re-queried for nested tables). -/
structure HDataPointer where
  ptr : Nat
  weechat : Nat
deriving DecidableEq

/-- Embedding of `impl HDataType for Cow<'_, str>::hdata_value`
(src/weechat-rs/src/hdata.rs lines 63-86): refuse with `none` when the
declared tag differs from WEECHAT_HDATA_STRING, then call the host's
hdata_string and translate its null reply to `none`. -/
def hdata_value_string (h : HDataHost) (name : String) : Option String :=
  if h.var_type name ≠ WEECHAT_HDATA_STRING then none
  else
    match h.string name with
    | none => none
    | some ret => some ret

/-- Embedding of Rust `u8::try_from` applied to the host's c_char value:
the conversion succeeds exactly when the value is representable as an
unsigned 8-bit integer (for an i8 source the upper bound holds vacuously). -/
def u8_try_from (v : Int) : Option Nat :=
  if 0 ≤ v ∧ v ≤ 255 then some v.toNat else none

/-- Embedding of `impl HDataType for char::hdata_value`
(src/weechat-rs/src/hdata.rs lines 94-113): refuse with `none` on a tag
mismatch, then convert the host's c_char through `try_into::<u8>()` and the
byte-to-char cast, mapping conversion failure to `none`. -/
def hdata_value_char (h : HDataHost) (name : String) : Option Char :=
  if h.var_type name ≠ WEECHAT_HDATA_CHAR then none
  else
    match u8_try_from (h.char_val name) with
    | some b => some (Char.ofNat b)
    | none => none

/-- Embedding of `impl HDataType for i32::hdata_value`
(src/weechat-rs/src/hdata.rs lines 135-153): refuse with `none` on a tag
mismatch, otherwise wrap the host's hdata_integer reply. -/
def hdata_value_i32 (h : HDataHost) (name : String) : Option Int :=
  if h.var_type name ≠ WEECHAT_HDATA_INTEGER then none
  else some (h.integer name)

/-- Embedding of `impl HDataType for i64::hdata_value`
(src/weechat-rs/src/hdata.rs lines 115-133): refuse with `none` on a tag
mismatch, otherwise wrap the host's hdata_long reply. -/
def hdata_value_i64 (h : HDataHost) (name : String) : Option Int :=
  if h.var_type name ≠ WEECHAT_HDATA_LONG then none
  else some (h.long name)

/-- Embedding of `impl HDataType for DateTime<Utc>::hdata_value`
(src/weechat-rs/src/hdata.rs lines 155-176): refuse with `none` on a tag
mismatch, otherwise wrap the host's hdata_time reply; the total conversion
of the unix timestamp to a calendar value is modelled by the timestamp
itself. -/
def hdata_value_time (h : HDataHost) (name : String) : Option Int :=
  if h.var_type name ≠ WEECHAT_HDATA_TIME then none
  else some (h.time name)

/-- Embedding of `impl HDataType for HDataPointer::hdata_value`
(src/weechat-rs/src/hdata.rs lines 184-205): refuse with `none` on a tag
mismatch, otherwise wrap the host's hdata_pointer reply unconditionally —
the source performs no null check on this path. -/
def hdata_value_pointer (h : HDataHost) (name : String) : Option HDataPointer :=
  if h.var_type name ≠ WEECHAT_HDATA_POINTER then none
  else some { ptr := h.pointer name, weechat := h.weechat_ptr }

/-- Modelled from the spec: the option type tag of config_options::OptionType
(that module is not among the provided sources); the spec names the four
typed option constructors — text, boolean, bounded integer, color — whose
type tag is handed to the host as a string. -/
inductive OptionType where
  | string
  | boolean
  | integer
  | color
deriving DecidableEq

/-- Modelled from the spec: OptionType::as_str, the string encoding of the
type tag placed in the OptionDescription handed to the host. -/
def OptionType.as_str : OptionType → String
  | .string => "string"
  | .boolean => "boolean"
  | .integer => "integer"
  | .color => "color"

/-- The value object carrying an option's registration data
(config_options::OptionDescription as used by src/weechat-rs/src/config.rs:
name, description, type tag, enumerated legal values, numeric bounds,
default and current encoded values, null-allowed flag). -/
structure OptionDescription where
  name : String
  description : String
  option_type : OptionType
  string_values : String
  min : Int
  max : Int
  default_value : String
  value : String
  null_allowed : Bool

/-- The shared Context Box of an option (config_options::OptionPointers as
populated by ConfigSection::new_option, src/weechat-rs/src/config.rs lines
430-438): the plugin pointer, plus one `(callback, state)` slot per phase.
A check callback receives its state slot, the reconstructed option handle
and the proposed value; change and delete callbacks receive their state
slot and the option handle. Mutation of the `&mut` state argument is
modelled by the callback returning the new state. -/
structure OptionPointers (A B C : Type) where
  weechat_ptr : Nat
  check_cb : Option (A → Nat → String → A)
  check_cb_data : A
  change_cb : Option (B → Nat → B)
  change_cb_data : B
  delete_cb : Option (C → Nat → C)
  delete_cb_data : C

/-- Embedding of the check-phase trampoline `c_check_cb`
(src/weechat-rs/src/config.rs lines 358-380): recover the Context Box,
reconstruct the option handle, run the user's check callback (if any) on
the box's check state slot, and return WEECHAT_RC_OK to the host — the
source returns this constant on every path and makes no host call. -/
def c_check_cb {A B C : Type} (p : OptionPointers A B C)
    (option_pointer : Nat) (value : String) : OptionPointers A B C × Int :=
  let data :=
    match p.check_cb with
    | some callback => callback p.check_cb_data option_pointer value
    | none => p.check_cb_data
  ({ p with check_cb_data := data }, WEECHAT_RC_OK)

/-- Embedding of the change-phase trampoline `c_change_cb`
(src/weechat-rs/src/config.rs lines 382-399): run the user's change
callback (if any) on the box's change state slot; the host signature for
this phase returns nothing. -/
def c_change_cb {A B C : Type} (p : OptionPointers A B C)
    (option_pointer : Nat) : OptionPointers A B C :=
  let data :=
    match p.change_cb with
    | some callback => callback p.change_cb_data option_pointer
    | none => p.change_cb_data
  { p with change_cb_data := data }

/-- Embedding of the delete-phase trampoline `c_delete_cb`
(src/weechat-rs/src/config.rs lines 401-418): run the user's delete
callback (if any) on the box's delete state slot. -/
def c_delete_cb {A B C : Type} (p : OptionPointers A B C)
    (option_pointer : Nat) : OptionPointers A B C :=
  let data :=
    match p.delete_cb with
    | some callback => callback p.delete_cb_data option_pointer
    | none => p.delete_cb_data
  { p with delete_cb_data := data }

/-- The argument record the host's config_new_option receives
(src/weechat-rs/src/config.rs lines 460-483). A `*_slot_installed` flag of
`false` models the null function pointer handed for that phase's trampoline
slot (`true` models the phase's trampoline); each `*_data_ptr` is the
opaque context address handed for that phase. -/
structure NewOptionCall where
  config_ptr : Nat
  section_ptr : Nat
  name : String
  option_type : String
  description : String
  string_values : String
  min : Int
  max : Int
  default_value : String
  value : String
  null_allowed : Bool
  check_slot_installed : Bool
  check_data_ptr : Nat
  change_slot_installed : Bool
  change_data_ptr : Nat
  delete_slot_installed : Bool
  delete_data_ptr : Nat

/-- The observable outcome of one ConfigSection::new_option run: the
Context Box built, its frozen address, the addresses allocated and the
addresses reclaimed before returning, the host call made, and the returned
option pointer (0 models the host's null reply, passed through unchecked). -/
structure NewOptionResult (A B C : Type) where
  box : OptionPointers A B C
  box_addr : Nat
  allocated : List Nat
  freed : List Nat
  host_call : NewOptionCall
  ret : Nat

/-- Embedding of ConfigSection::new_option
(src/weechat-rs/src/config.rs lines 342-484). One OptionPointers box is
allocated and its address frozen by Box::leak ("TODO this leaks curently");
the box is reclaimed on no path, so `freed` is empty. Per phase, a `Some`
callback installs that phase's trampoline and a `None` installs the null
pointer; the single box address is handed to the host in all three context
slots; the host's reply pointer is returned unconditionally — the source
checks it against null on no path. `box_addr` is the allocator's reply and
`host_reply` the host's, both inputs of the model. -/
def new_option {A B C : Type} [Inhabited A] [Inhabited B] [Inhabited C]
    (weechat_ptr config_ptr section_ptr box_addr host_reply : Nat)
    (option_description : OptionDescription)
    (check_cb : Option (A → Nat → String → A)) (check_cb_data : Option A)
    (change_cb : Option (B → Nat → B)) (change_cb_data : Option B)
    (delete_cb : Option (C → Nat → C)) (delete_cb_data : Option C) :
    NewOptionResult A B C :=
  let option_pointers : OptionPointers A B C :=
    { weechat_ptr := weechat_ptr
      check_cb := check_cb
      check_cb_data := check_cb_data.getD default
      change_cb := change_cb
      change_cb_data := change_cb_data.getD default
      delete_cb := delete_cb
      delete_cb_data := delete_cb_data.getD default }
  { box := option_pointers
    box_addr := box_addr
    allocated := [box_addr]
    freed := []
    host_call :=
      { config_ptr := config_ptr
        section_ptr := section_ptr
        name := option_description.name
        option_type := option_description.option_type.as_str
        description := option_description.description
        string_values := option_description.string_values
        min := option_description.min
        max := option_description.max
        default_value := option_description.default_value
        value := option_description.value
        null_allowed := option_description.null_allowed
        check_slot_installed := check_cb.isSome
        check_data_ptr := box_addr
        change_slot_installed := change_cb.isSome
        change_data_ptr := box_addr
        delete_slot_installed := delete_cb.isSome
        delete_data_ptr := box_addr }
    ret := host_reply }

/-- Embedding of ConfigSection::new_boolean_option
(src/weechat-rs/src/config.rs lines 225-261): encode the boolean `value`
and `default_value` to the literal tokens "on" and "off", build the
OptionDescription with the boolean type tag and defaulted remaining fields,
and delegate to new_option with only the change phase populated. -/
def new_boolean_option {D : Type} [Inhabited D]
    (weechat_ptr config_ptr section_ptr box_addr host_reply : Nat)
    (name description : String) (default_value value : Bool)
    (null_allowed : Bool)
    (change_cb : Option (D → Nat → D)) (change_cb_data : Option D) :
    NewOptionResult String D String :=
  new_option weechat_ptr config_ptr section_ptr box_addr host_reply
    { name := name
      description := description
      option_type := OptionType.boolean
      string_values := ""
      min := 0
      max := 0
      default_value := if default_value then "on" else "off"
      value := if value then "on" else "off"
      null_allowed := null_allowed }
    none none change_cb change_cb_data none none

/-- The Context Box of a Config (struct ConfigPointers,
src/weechat-rs/src/config.rs lines 28-31): the optional reload callback and
its state, with `&mut` mutation modelled by the callback returning the new
state. -/
structure ConfigPointers (T : Type) where
  reload_cb : Option (T → T)
  reload_data : T

/-- Embedding of the reload trampoline `c_reload_cb`
(src/weechat-rs/src/config.rs lines 509-524): run the user's reload
callback (if any) on the box's reload data and return WEECHAT_RC_OK. -/
def c_reload_cb {T : Type} (p : ConfigPointers T) : ConfigPointers T × Int :=
  let data :=
    match p.reload_cb with
    | some callback => callback p.reload_data
    | none => p.reload_data
  ({ p with reload_data := data }, WEECHAT_RC_OK)

/-- The argument record the host's config_new receives
(src/weechat-rs/src/config.rs lines 540-548): the file name, whether a
reload trampoline pointer was installed (`false` models the null function
pointer), and the context address handed over. -/
structure ConfigNewCall where
  name : String
  reload_slot_installed : Bool
  data_ptr : Nat

/-- The owning wrapper for a configuration file (struct Config,
src/weechat-rs/src/config.rs lines 21-26): the host-assigned file pointer,
the plugin pointer, the owned Context Box, and the owned sections; the
section collection is modelled as the list of section pointers in teardown
order. -/
structure Config (T : Type) where
  ptr : Nat
  weechat_ptr : Nat
  config_data : ConfigPointers T
  sections : List Nat

/-- The observable outcome of one Weechat::config_new run: the host call
made, the addresses allocated, the addresses reclaimed before returning,
and the Config wrapper produced. The box is moved back into the wrapper by
Box::from_raw, so it is owned (reclaimed at the wrapper's drop), but
nothing is freed before construction returns. -/
structure ConfigNewResult (T : Type) where
  host_call : ConfigNewCall
  allocated : List Nat
  freed : List Nat
  config : Config T

/-- Embedding of Weechat::config_new
(src/weechat-rs/src/config.rs lines 503-557): build the ConfigPointers box,
freeze its address, install the reload trampoline only for a `Some`
callback, call the host's config_new, then move the box back into the
returned Config unconditionally — the host's reply pointer (0 models null)
is wrapped into a live Config on every path, with no failure check. -/
def config_new {T : Type} [Inhabited T]
    (weechat_ptr box_addr host_reply : Nat) (name : String)
    (reload_callback : Option (T → T)) (reload_data : Option T) :
    ConfigNewResult T :=
  let config_pointers : ConfigPointers T :=
    { reload_cb := reload_callback
      reload_data := reload_data.getD default }
  { host_call :=
      { name := name
        reload_slot_installed := reload_callback.isSome
        data_ptr := box_addr }
    allocated := [box_addr]
    freed := []
    config :=
      { ptr := host_reply
        weechat_ptr := weechat_ptr
        config_data := config_pointers
        sections := [] } }

/-- A non-owning hook wrapper (struct Hook, src/weechat-rs/src/hooks.rs
lines 19-22): the host-assigned hook pointer and the plugin pointer. -/
structure Hook where
  ptr : Nat
  weechat_ptr : Nat

/-- The Context Box of a command hook (struct CommandHookData,
src/weechat-rs/src/hooks.rs lines 53-57): the user callback — which
receives its state, the buffer pointer and the argument vector — the user
state, and the plugin pointer needed to rebuild the Buffer. -/
structure CommandHookData (T : Type) where
  callback : T → Nat → List String → T
  callback_data : T
  weechat_ptr : Nat

/-- The argument record the host's hook_command receives
(src/weechat-rs/src/hooks.rs lines 148-160): the command metadata strings,
whether a callback trampoline pointer was installed (always true on this
path), and the context address handed over. -/
structure HookCommandCall where
  name : String
  description : String
  args : String
  args_description : String
  completion : String
  callback_slot_installed : Bool
  data_ptr : Nat

/-- The observable outcome of one Weechat::hook_command run. -/
structure CommandHookResult (T : Type) where
  host_call : HookCommandCall
  allocated : List Nat
  freed : List Nat
  hook : Hook
  hook_data : CommandHookData T

/-- Embedding of Weechat::hook_command
(src/weechat-rs/src/hooks.rs lines 104-171): build the CommandHookData box,
freeze its address, register with the host, then move the box back into the
returned CommandHook unconditionally — the host's reply pointer (0 models
null) is wrapped into a live hook on every path, with no failure check. -/
def hook_command {T : Type} [Inhabited T]
    (weechat_ptr box_addr host_reply : Nat)
    (name description args args_description completion : String)
    (callback : T → Nat → List String → T) (callback_data : Option T) :
    CommandHookResult T :=
  let data : CommandHookData T :=
    { callback := callback
      callback_data := callback_data.getD default
      weechat_ptr := weechat_ptr }
  { host_call :=
      { name := name
        description := description
        args := args
        args_description := args_description
        completion := completion
        callback_slot_installed := true
        data_ptr := box_addr }
    allocated := [box_addr]
    freed := []
    hook := { ptr := host_reply, weechat_ptr := weechat_ptr }
    hook_data := data }

/-- The Context Box of a file-descriptor hook (struct FdHookData,
src/weechat-rs/src/hooks.rs lines 47-51): the user callback — which reads
the state and mutates the watched object — the user state, and the watched
object itself. -/
structure FdHookData (T F : Type) where
  callback : T → F → F
  callback_data : T
  fd_object : F

/-- Embedding of the file-descriptor trampoline `c_hook_cb`
(src/weechat-rs/src/hooks.rs lines 196-210): recover the Context Box and
invoke the user callback on the box's state and watched object; the fd
number the host passes is received as `_fd` and used nowhere — dispatch is
by the Context Box alone — and WEECHAT_RC_OK is returned. -/
def c_hook_cb_fd {T F : Type} (hook_data : FdHookData T F) (_fd : Int) :
    FdHookData T F × Int :=
  ({ hook_data with
      fd_object := hook_data.callback hook_data.callback_data hook_data.fd_object },
   WEECHAT_RC_OK)

/-- The mode of a file-descriptor hook (enum FdHookMode,
src/weechat-rs/src/hooks.rs lines 32-39). -/
inductive FdHookMode where
  | read
  | write
  | readWrite

/-- Embedding of FdHookMode::as_tuple (src/weechat-rs/src/hooks.rs lines
59-74): the host's (read, write) flag pair. -/
def FdHookMode.as_tuple : FdHookMode → Int × Int
  | .read => (1, 0)
  | .readWrite => (1, 1)
  | .write => (0, 1)

/-- The argument record the host's hook_fd receives
(src/weechat-rs/src/hooks.rs lines 224-235): the raw descriptor, the read
and write flags, whether a callback trampoline pointer was installed
(always true on this path), and the context address handed over. -/
structure HookFdCall where
  fd : Int
  read : Int
  write : Int
  callback_slot_installed : Bool
  data_ptr : Nat

/-- The observable outcome of one Weechat::hook_fd run. -/
structure FdHookResult (T F : Type) where
  host_call : HookFdCall
  allocated : List Nat
  freed : List Nat
  hook : Hook
  hook_data : FdHookData T F

/-- Embedding of Weechat::hook_fd (src/weechat-rs/src/hooks.rs lines
185-246): build the FdHookData box around the watched object, freeze its
address, register with the host, then move the box back into the returned
FdHook unconditionally — the host's reply pointer (0 models null) is
wrapped into a live hook on every path, with no failure check. `fd` is the
watched object's raw descriptor. -/
def hook_fd {T F : Type} [Inhabited T]
    (weechat_ptr box_addr host_reply : Nat) (fd : Int) (mode : FdHookMode)
    (callback : T → F → F) (callback_data : Option T) (fd_object : F) :
    FdHookResult T F :=
  let data : FdHookData T F :=
    { callback := callback
      callback_data := callback_data.getD default
      fd_object := fd_object }
  { host_call :=
      { fd := fd
        read := mode.as_tuple.1
        write := mode.as_tuple.2
        callback_slot_installed := true
        data_ptr := box_addr }
    allocated := [box_addr]
    freed := []
    hook := { ptr := host_reply, weechat_ptr := weechat_ptr }
    hook_data := data }

/-- One call into the host made during resource teardown. -/
inductive HostCall where
  | options_free (section_ptr : Nat)
  | section_free (section_ptr : Nat)
  | config_free (config_ptr : Nat)
deriving DecidableEq

/-- Embedding of `impl Drop for ConfigSection`
(src/weechat-rs/src/config.rs lines 92-104): free the section's options
first, then the section itself. -/
def drop_config_section (section_ptr : Nat) : List HostCall :=
  [HostCall.options_free section_ptr, HostCall.section_free section_ptr]

/-- The host-call trace of dropping each section of a collection in turn. -/
def drop_sections : List Nat → List HostCall
  | [] => []
  | s :: rest => drop_config_section s ++ drop_sections rest

/-- Embedding of `impl Drop for Config` (src/weechat-rs/src/config.rs lines
77-90): clear (drop) the owned sections first — each section emitting its
options_free then its section_free — and only then call the host's
config_free on the file pointer. -/
def drop_config {T : Type} (c : Config T) : List HostCall :=
  drop_sections c.sections ++ [HostCall.config_free c.ptr]

/-- Event `a` occurs strictly before event `b` in trace `t`. -/
def occursBefore (a b : HostCall) (t : List HostCall) : Prop :=
  ∃ l₁ l₂ l₃, t = l₁ ++ a :: l₂ ++ b :: l₃

/-- A concrete hdata table whose every field is declared with the tag
WEECHAT_HDATA_OTHER (0), mismatching all six supported read types. -/
def h3 : HDataHost :=
  { weechat_ptr := 1
    var_type := fun _ => 0
    string := fun _ => some "s"
    char_val := fun _ => 65
    integer := fun _ => 7
    long := fun _ => 8
    time := fun _ => 9
    pointer := fun _ => 2 }

/-- A concrete hdata table whose every field is declared as a pointer and
whose pointer getter replies with the null sentinel 0. -/
def h6 : HDataHost :=
  { weechat_ptr := 1
    var_type := fun _ => 5
    string := fun _ => none
    char_val := fun _ => 0
    integer := fun _ => 0
    long := fun _ => 0
    time := fun _ => 0
    pointer := fun _ => 0 }

/-- A concrete hdata table declaring field "s" as a string (whose getter
replies null) and every other field as a pointer (whose getter replies 7). -/
def h6a : HDataHost :=
  { weechat_ptr := 2
    var_type := fun n => if n = "s" then 4 else 5
    string := fun _ => none
    char_val := fun _ => 0
    integer := fun _ => 0
    long := fun _ => 0
    time := fun _ => 0
    pointer := fun _ => 7 }

/-- A concrete hdata table whose every field is declared as a char with
host value 65. -/
def h10 : HDataHost :=
  { weechat_ptr := 1
    var_type := fun _ => 1
    string := fun _ => none
    char_val := fun _ => 65
    integer := fun _ => 0
    long := fun _ => 0
    time := fun _ => 0
    pointer := fun _ => 0 }

/-- A concrete hdata table whose every field is declared as a char with
the negative host value -1. -/
def h10n : HDataHost :=
  { weechat_ptr := 1
    var_type := fun _ => 1
    string := fun _ => none
    char_val := fun _ => -1
    integer := fun _ => 0
    long := fun _ => 0
    time := fun _ => 0
    pointer := fun _ => 0 }

/-- A concrete Config owning two sections (pointers 3 and 5). -/
def c0 : Config Nat :=
  { ptr := 9
    weechat_ptr := 1
    config_data := { reload_cb := none, reload_data := 0 }
    sections := [3, 5] }

/-- A concrete OptionDescription for a plain string option. -/
def desc1 : OptionDescription :=
  { name := "opt"
    description := "d"
    option_type := OptionType.string
    string_values := ""
    min := 0
    max := 0
    default_value := ""
    value := ""
    null_allowed := false }

/-- A concrete option Context Box with no callbacks and distinct state
slots. -/
def p7 : OptionPointers Nat Nat Nat :=
  { weechat_ptr := 1
    check_cb := none
    check_cb_data := 5
    change_cb := none
    change_cb_data := 7
    delete_cb := none
    delete_cb_data := 9 }

/-- A copy of `p7` whose change state slot differs. -/
def q7 : OptionPointers Nat Nat Nat :=
  { p7 with change_cb_data := 8 }

/-- Splitting lemma for the section-teardown trace: a member section's
options_free immediately followed by its section_free occurs somewhere in
the trace of dropping the collection. -/
theorem drop_sections_mem_split {s : Nat} {l : List Nat} (hmem : s ∈ l) :
    ∃ l₁ l₂, drop_sections l =
      l₁ ++ HostCall.options_free s :: HostCall.section_free s :: l₂ := by
  induction l with
  | nil => cases hmem
  | cons a rest ih =>
    rcases List.mem_cons.mp hmem with h | h
    · subst h
      exact ⟨[], drop_sections rest, rfl⟩
    · obtain ⟨l₁, l₂, hl⟩ := ih h
      exact ⟨HostCall.options_free a :: HostCall.section_free a :: l₁, l₂, by
        simp [drop_sections, drop_config_section, hl]⟩

/-- C4: when a Config owning ConfigSections is destroyed, the host free
calls run strictly children-before-parent: for every owned section, its
options_free precedes its section_free, and both precede the config_free
on the owning Config's pointer. -/
theorem drop_config_children_before_parent {T : Type} (c : Config T)
    (s : Nat) (hmem : s ∈ c.sections) :
    occursBefore (HostCall.options_free s) (HostCall.section_free s)
        (drop_config c) ∧
    occursBefore (HostCall.options_free s) (HostCall.config_free c.ptr)
        (drop_config c) ∧
    occursBefore (HostCall.section_free s) (HostCall.config_free c.ptr)
        (drop_config c) := by
  obtain ⟨l₁, l₂, hl⟩ := drop_sections_mem_split hmem
  unfold drop_config
  rw [hl]
  refine ⟨⟨l₁, [], l₂ ++ [HostCall.config_free c.ptr], by simp⟩,
          ⟨l₁, HostCall.section_free s :: l₂, [], by simp⟩,
          ⟨l₁ ++ [HostCall.options_free s], l₂, [], by simp⟩⟩

/-- Witness for C4: in the teardown trace of the concrete Config `c0`,
section 3's options_free precedes its section_free, and both precede the
config_free of `c0`. -/
theorem drop_config_children_before_parent_witness :
    3 ∈ c0.sections ∧
    (occursBefore (HostCall.options_free 3) (HostCall.section_free 3)
        (drop_config c0) ∧
     occursBefore (HostCall.options_free 3) (HostCall.config_free c0.ptr)
        (drop_config c0) ∧
     occursBefore (HostCall.section_free 3) (HostCall.config_free c0.ptr)
        (drop_config c0)) :=
  ⟨by decide, drop_config_children_before_parent c0 3 (by decide)⟩

/-- C3: for every supported result type (text, single character, 32-bit
integer, 64-bit integer, calendar timestamp, opaque pointer), a typed
hdata read whose expected tag differs from the table's declared tag for
the field returns absence, never a value obtained by reinterpreting the
field's bytes. -/
theorem hdata_value_tag_mismatch_none (h : HDataHost) (name : String) :
    (h.var_type name ≠ WEECHAT_HDATA_STRING →
      hdata_value_string h name = none) ∧
    (h.var_type name ≠ WEECHAT_HDATA_CHAR →
      hdata_value_char h name = none) ∧
    (h.var_type name ≠ WEECHAT_HDATA_INTEGER →
      hdata_value_i32 h name = none) ∧
    (h.var_type name ≠ WEECHAT_HDATA_LONG →
      hdata_value_i64 h name = none) ∧
    (h.var_type name ≠ WEECHAT_HDATA_TIME →
      hdata_value_time h name = none) ∧
    (h.var_type name ≠ WEECHAT_HDATA_POINTER →
      hdata_value_pointer h name = none) := by
  refine ⟨fun hne => ?_, fun hne => ?_, fun hne => ?_,
          fun hne => ?_, fun hne => ?_, fun hne => ?_⟩ <;>
    simp [hdata_value_string, hdata_value_char, hdata_value_i32,
      hdata_value_i64, hdata_value_time, hdata_value_pointer, hne]

/-- Witness for C3: on the concrete table `h3`, whose declared tag 0
matches none of the six supported types, every typed read returns none. -/
theorem hdata_value_tag_mismatch_none_witness :
    hdata_value_string h3 "f" = none ∧
    hdata_value_char h3 "f" = none ∧
    hdata_value_i32 h3 "f" = none ∧
    hdata_value_i64 h3 "f" = none ∧
    hdata_value_time h3 "f" = none ∧
    hdata_value_pointer h3 "f" = none :=
  ⟨(hdata_value_tag_mismatch_none h3 "f").1 (by decide),
   (hdata_value_tag_mismatch_none h3 "f").2.1 (by decide),
   (hdata_value_tag_mismatch_none h3 "f").2.2.1 (by decide),
   (hdata_value_tag_mismatch_none h3 "f").2.2.2.1 (by decide),
   (hdata_value_tag_mismatch_none h3 "f").2.2.2.2.1 (by decide),
   (hdata_value_tag_mismatch_none h3 "f").2.2.2.2.2 (by decide)⟩

/-- C6 counterexample: on the concrete table `h6`, the field "f" is
declared as a pointer and the host's pointer getter replies with the null
sentinel 0, yet the opaque-pointer read returns a value wrapping the
sentinel instead of absence. -/
theorem hdata_pointer_wraps_null_counterexample :
    h6.var_type "f" = WEECHAT_HDATA_POINTER ∧
    h6.pointer "f" = 0 ∧
    hdata_value_pointer h6 "f" = some { ptr := 0, weechat := 1 } ∧
    hdata_value_pointer h6 "f" ≠ none := by
  refine ⟨rfl, rfl, by decide, by decide⟩

/-- C6 amended: on a matching tag, the text read translates the host's
null reply to absence, but the opaque-pointer read wraps the host's reply
unconditionally — returning a value even when the reply is the null
sentinel. -/
theorem hdata_null_sentinel_amended (h : HDataHost) (name : String) :
    (h.var_type name = WEECHAT_HDATA_STRING → h.string name = none →
      hdata_value_string h name = none) ∧
    (h.var_type name = WEECHAT_HDATA_POINTER →
      hdata_value_pointer h name =
        some { ptr := h.pointer name, weechat := h.weechat_ptr }) := by
  constructor
  · intro ht hs
    simp [hdata_value_string, ht, hs]
  · intro ht
    simp [hdata_value_pointer, ht]

/-- Witness for C6 amended: on the concrete table `h6a`, the string field
"s" with a null host reply reads as none, and the pointer field "p" reads
as the wrapped host reply. -/
theorem hdata_null_sentinel_amended_witness :
    hdata_value_string h6a "s" = none ∧
    hdata_value_pointer h6a "p" = some { ptr := 7, weechat := 2 } :=
  ⟨(hdata_null_sentinel_amended h6a "s").1 (by decide) (by decide),
   (hdata_null_sentinel_amended h6a "p").2 (by decide)⟩

/-- C10: the char read returns a value only when the host's c_char is
representable as an unsigned 8-bit value — the value then being that byte
as a character — and returns absence when the host value is negative,
rather than failing or wrapping. -/
theorem hdata_value_char_range (h : HDataHost) (name : String) :
    (∀ c : Char, hdata_value_char h name = some c →
      h.var_type name = WEECHAT_HDATA_CHAR ∧
      0 ≤ h.char_val name ∧ h.char_val name ≤ 255 ∧
      c = Char.ofNat (h.char_val name).toNat) ∧
    (h.var_type name = WEECHAT_HDATA_CHAR → h.char_val name < 0 →
      hdata_value_char h name = none) := by
  constructor
  · intro c hc
    unfold hdata_value_char at hc
    by_cases ht : h.var_type name ≠ WEECHAT_HDATA_CHAR
    · simp [ht] at hc
    · push_neg at ht
      rw [if_neg (by simp [ht])] at hc
      unfold u8_try_from at hc
      by_cases hr : 0 ≤ h.char_val name ∧ h.char_val name ≤ 255
      · rw [if_pos hr] at hc
        simp at hc
        exact ⟨ht, hr.1, hr.2, hc.symm⟩
      · rw [if_neg hr] at hc
        simp at hc
  · intro ht hneg
    have hr : ¬(0 ≤ h.char_val name ∧ h.char_val name ≤ 255) := by
      intro hand
      exact absurd hand.1 (not_le.mpr hneg)
    unfold hdata_value_char u8_try_from
    rw [if_neg (by simp [ht]), if_neg hr]

/-- Witness for C10: on the concrete table `h10` the char field with host
value 65 reads as that byte's character, and on `h10n` the negative host
value -1 reads as none. -/
theorem hdata_value_char_range_witness :
    (h10.var_type "f" = WEECHAT_HDATA_CHAR ∧
      0 ≤ h10.char_val "f" ∧ h10.char_val "f" ≤ 255 ∧
      Char.ofNat 65 = Char.ofNat (h10.char_val "f").toNat) ∧
    hdata_value_char h10n "f" = none :=
  ⟨(hdata_value_char_range h10 "f").1 (Char.ofNat 65) (by decide),
   (hdata_value_char_range h10n "f").2 (by decide) (by decide)⟩

/-- C1 (evaluation at the failing input): when the host's registration
reply is the null sentinel 0, new_option reclaims nothing (its leaked
Context Box stays allocated) and still hands back the null pointer for
wrapping; config_new, hook_command and hook_fd likewise reclaim nothing
before returning and construct live wrappers around the null handle —
construction fails on no path. -/
theorem registration_failure_unchecked :
    (new_option (A := Unit) (B := Unit) (C := Unit) 1 2 3 100 0 desc1
        none none none none none none).ret = 0 ∧
    (new_option (A := Unit) (B := Unit) (C := Unit) 1 2 3 100 0 desc1
        none none none none none none).freed = [] ∧
    (new_option (A := Unit) (B := Unit) (C := Unit) 1 2 3 100 0 desc1
        none none none none none none).allocated = [100] ∧
    (config_new (T := Unit) 1 100 0 "cfg" none none).config.ptr = 0 ∧
    (config_new (T := Unit) 1 100 0 "cfg" none none).freed = [] ∧
    (hook_command (T := Unit) 1 100 0 "cmd" "" "" "" ""
        (fun t _ _ => t) none).hook.ptr = 0 ∧
    (hook_command (T := Unit) 1 100 0 "cmd" "" "" "" ""
        (fun t _ _ => t) none).freed = [] ∧
    (hook_fd (T := Unit) (F := Unit) 1 100 0 5 FdHookMode.read
        (fun _ f => f) none ()).hook.ptr = 0 ∧
    (hook_fd (T := Unit) (F := Unit) 1 100 0 5 FdHookMode.read
        (fun _ f => f) none ()).freed = [] :=
  ⟨rfl, rfl, rfl, rfl, rfl, rfl, rfl, rfl, rfl⟩

/-- C2 (evaluation of the code's actual behaviour): the check-phase
trampoline returns the one fixed status WEECHAT_RC_OK to the host on every
invocation — whatever the user's check callback is or does, acceptance and
rejection produce the same status code, so a rejection is never reported;
the trampoline makes no host call, so it does not alter the option's
stored value. -/
theorem c_check_cb_returns_ok_always {A B C : Type}
    (p : OptionPointers A B C) (option_pointer : Nat) (value : String) :
    (c_check_cb p option_pointer value).2 = WEECHAT_RC_OK ∧
    (c_check_cb p option_pointer value).2 =
      (c_check_cb { p with check_cb := none } option_pointer value).2 :=
  ⟨rfl, rfl⟩

/-- C5: a registration phase whose callback is absent hands the host a
null function pointer for that phase's trampoline slot — the check, change
and delete phases of new_option and the reload phase of config_new — so
the host never invokes user code for that phase. -/
theorem absent_callback_null_slot :
    (∀ {A B C : Type} [Inhabited A] [Inhabited B] [Inhabited C]
        (w c s a r : Nat) (d : OptionDescription) (ccd : Option A)
        (chb : Option (B → Nat → B)) (chd : Option B)
        (dcb : Option (C → Nat → C)) (dcd : Option C),
      (new_option w c s a r d none ccd chb chd
          dcb dcd).host_call.check_slot_installed = false) ∧
    (∀ {A B C : Type} [Inhabited A] [Inhabited B] [Inhabited C]
        (w c s a r : Nat) (d : OptionDescription)
        (ccb : Option (A → Nat → String → A)) (ccd : Option A)
        (chd : Option B) (dcb : Option (C → Nat → C)) (dcd : Option C),
      (new_option w c s a r d ccb ccd none chd
          dcb dcd).host_call.change_slot_installed = false) ∧
    (∀ {A B C : Type} [Inhabited A] [Inhabited B] [Inhabited C]
        (w c s a r : Nat) (d : OptionDescription)
        (ccb : Option (A → Nat → String → A)) (ccd : Option A)
        (chb : Option (B → Nat → B)) (chd : Option B) (dcd : Option C),
      (new_option w c s a r d ccb ccd chb chd
          none dcd).host_call.delete_slot_installed = false) ∧
    (∀ {T : Type} [Inhabited T] (w a r : Nat) (n : String)
        (rd : Option T),
      (config_new w a r n none rd).host_call.reload_slot_installed
        = false) :=
  ⟨fun _ _ _ _ _ _ _ _ _ _ _ => rfl,
   fun _ _ _ _ _ _ _ _ _ _ _ => rfl,
   fun _ _ _ _ _ _ _ _ _ _ _ => rfl,
   fun _ _ _ _ _ => rfl⟩

/-- C7: new_option allocates exactly one Context Box, hands its single
address to the host in all three callback context slots, and each phase's
trampoline mutates only its own state slot of the shared box (all other
fields preserved) and computes its new state from its own callback and
state slot alone. -/
theorem new_option_single_box_shared_address :
    (∀ {A B C : Type} [Inhabited A] [Inhabited B] [Inhabited C]
        (w c s a r : Nat) (d : OptionDescription)
        (ccb : Option (A → Nat → String → A)) (ccd : Option A)
        (chb : Option (B → Nat → B)) (chd : Option B)
        (dcb : Option (C → Nat → C)) (dcd : Option C),
      (new_option w c s a r d ccb ccd chb chd dcb dcd).allocated = [a] ∧
      (new_option w c s a r d ccb ccd chb chd
          dcb dcd).host_call.check_data_ptr = a ∧
      (new_option w c s a r d ccb ccd chb chd
          dcb dcd).host_call.change_data_ptr = a ∧
      (new_option w c s a r d ccb ccd chb chd
          dcb dcd).host_call.delete_data_ptr = a) ∧
    (∀ {A B C : Type} (p : OptionPointers A B C) (o : Nat) (v : String),
      (c_check_cb p o v).1.change_cb_data = p.change_cb_data ∧
      (c_check_cb p o v).1.delete_cb_data = p.delete_cb_data ∧
      (c_check_cb p o v).1.check_cb = p.check_cb ∧
      (c_check_cb p o v).1.change_cb = p.change_cb ∧
      (c_check_cb p o v).1.delete_cb = p.delete_cb ∧
      (c_check_cb p o v).1.weechat_ptr = p.weechat_ptr) ∧
    (∀ {A B C : Type} (p : OptionPointers A B C) (o : Nat),
      (c_change_cb p o).check_cb_data = p.check_cb_data ∧
      (c_change_cb p o).delete_cb_data = p.delete_cb_data ∧
      (c_change_cb p o).check_cb = p.check_cb ∧
      (c_change_cb p o).change_cb = p.change_cb ∧
      (c_change_cb p o).delete_cb = p.delete_cb ∧
      (c_change_cb p o).weechat_ptr = p.weechat_ptr) ∧
    (∀ {A B C : Type} (p : OptionPointers A B C) (o : Nat),
      (c_delete_cb p o).check_cb_data = p.check_cb_data ∧
      (c_delete_cb p o).change_cb_data = p.change_cb_data ∧
      (c_delete_cb p o).check_cb = p.check_cb ∧
      (c_delete_cb p o).change_cb = p.change_cb ∧
      (c_delete_cb p o).delete_cb = p.delete_cb ∧
      (c_delete_cb p o).weechat_ptr = p.weechat_ptr) ∧
    ((∀ {A B C : Type} (p q : OptionPointers A B C) (o : Nat) (v : String),
       p.check_cb = q.check_cb → p.check_cb_data = q.check_cb_data →
       (c_check_cb p o v).1.check_cb_data =
         (c_check_cb q o v).1.check_cb_data) ∧
     (∀ {A B C : Type} (p q : OptionPointers A B C) (o : Nat),
       p.change_cb = q.change_cb → p.change_cb_data = q.change_cb_data →
       (c_change_cb p o).change_cb_data =
         (c_change_cb q o).change_cb_data) ∧
     (∀ {A B C : Type} (p q : OptionPointers A B C) (o : Nat),
       p.delete_cb = q.delete_cb → p.delete_cb_data = q.delete_cb_data →
       (c_delete_cb p o).delete_cb_data =
         (c_delete_cb q o).delete_cb_data)) := by
  refine ⟨fun _ _ _ _ _ _ _ _ _ _ _ _ => ⟨rfl, rfl, rfl, rfl⟩,
          fun _ _ _ => ⟨rfl, rfl, rfl, rfl, rfl, rfl⟩,
          fun _ _ => ⟨rfl, rfl, rfl, rfl, rfl, rfl⟩,
          fun _ _ => ⟨rfl, rfl, rfl, rfl, rfl, rfl⟩,
          fun p q o v h1 h2 => ?_, fun p q o h1 h2 => ?_,
          fun p q o h1 h2 => ?_⟩ <;>
    simp [c_check_cb, c_change_cb, c_delete_cb, h1, h2]

/-- Witness for C7: the reads-only-own-slot part applied to the concrete
boxes `p7` and `q7`, which agree on the check phase but differ in the
change slot, plus the registration part at concrete arguments. -/
theorem new_option_single_box_shared_address_witness :
    ((new_option (A := Unit) (B := Unit) (C := Unit) 1 2 3 100 7 desc1
        none none none none none none).allocated = [100] ∧
     (new_option (A := Unit) (B := Unit) (C := Unit) 1 2 3 100 7 desc1
        none none none none none none).host_call.check_data_ptr = 100 ∧
     (new_option (A := Unit) (B := Unit) (C := Unit) 1 2 3 100 7 desc1
        none none none none none none).host_call.change_data_ptr = 100 ∧
     (new_option (A := Unit) (B := Unit) (C := Unit) 1 2 3 100 7 desc1
        none none none none none none).host_call.delete_data_ptr = 100) ∧
    (c_check_cb p7 0 "v").1.check_cb_data =
      (c_check_cb q7 0 "v").1.check_cb_data :=
  ⟨new_option_single_box_shared_address.1 1 2 3 100 7 desc1
      none none none none none none,
   new_option_single_box_shared_address.2.2.2.2.1 p7 q7 0 "v" rfl rfl⟩

/-- C8: new_boolean_option encodes the boolean value and default value to
exactly the two fixed literal tokens of the host convention — every true
to "on" and every false to "off" — before handing them to the host, and
the two tokens are distinct. -/
theorem new_boolean_option_token_encoding {D : Type} [Inhabited D]
    (w c s a r : Nat) (name description : String) (dv v na : Bool)
    (chb : Option (D → Nat → D)) (chd : Option D) :
    (new_boolean_option w c s a r name description dv v na
        chb chd).host_call.value = (if v then "on" else "off") ∧
    (new_boolean_option w c s a r name description dv v na
        chb chd).host_call.default_value = (if dv then "on" else "off") ∧
    ("on" : String) ≠ "off" :=
  ⟨rfl, rfl, by decide⟩

/-- C9: the file-descriptor trampoline's behaviour is independent of the
fd number the host passes: for any Context Box and any two fd values, the
invocation produces the same user-callback call and the same return
status — dispatch is by the Context Box alone. -/
theorem c_hook_cb_fd_ignores_fd {T F : Type} (hook_data : FdHookData T F)
    (fd1 fd2 : Int) :
    c_hook_cb_fd hook_data fd1 = c_hook_cb_fd hook_data fd2 :=
  rfl

end Weechat
